import Mathlib

/-!
# Verification of the nps_renamer package-renaming pipeline

Shallow embedding of `src/nps_renamer.py`: a tool that matches PlayStation
package files against TSV metadata catalogs using a three-tier strategy
(filename pattern, header content-id + size, full-file SHA-256) and plans
renames/moves into a canonical directory layout.

Modelling conventions:
* Python strings are Lean `String`s (lists of Unicode scalar values).
* Python `int` is Lean `Int`; byte values are `Nat`.
* The filesystem is abstracted: a package file carries its path, its byte
  content (`none` models an unreadable file, i.e. `IOError` on open), and
  its SHA-256 hex digest (the value `sha256sum` would compute; the hash
  function itself is external to the repository and is treated as an
  oracle attribute of the file).
* Fallible Python code (caught or uncaught exceptions) is `Except`.
* `unicodedata.normalize("NFC", ·)` is external to the repository; the
  pipeline is parameterised by a function `nfc : String → String`
  standing for it.  Facts about it are taken as explicit hypotheses
  where needed (and hold for the real NFC, as well as for `id`, which is
  what NFC is on the ASCII strings used in concrete scenarios).
-/

set_option autoImplicit false

deriving instance DecidableEq for Except

namespace NpsRenamer

/-! ## Python string primitives used by the source -/

/-- Code points of the characters Python's `str.strip()` removes
(those with `str.isspace() == True`). -/
def pyWhitespace : List Nat :=
  [0x09, 0x0A, 0x0B, 0x0C, 0x0D, 0x1C, 0x1D, 0x1E, 0x1F, 0x20, 0x85, 0xA0,
   0x1680, 0x2000, 0x2001, 0x2002, 0x2003, 0x2004, 0x2005, 0x2006, 0x2007,
   0x2008, 0x2009, 0x200A, 0x2028, 0x2029, 0x202F, 0x205F, 0x3000]

def isPyWS (c : Char) : Bool := pyWhitespace.contains c.toNat

/-- Drop the trailing elements satisfying `p` (helper for `str.strip`). -/
def dropRightWhile (p : Char → Bool) (l : List Char) : List Char :=
  (l.reverse.dropWhile p).reverse

/-- Python `str.strip()` on a list of characters. -/
def stripList (l : List Char) : List Char :=
  dropRightWhile isPyWS (l.dropWhile isPyWS)

/-- Python `str.strip()`. -/
def pyStrip (s : String) : String := String.mk (stripList s.data)

/-- Python `str.lstrip("0")`: remove leading `'0'` characters. -/
def lstripZeros (s : String) : String := String.mk (s.data.dropWhile (· == '0'))

/-- ASCII lower-casing of one character (Python `str.lower()`; the
strings this program lower-cases are ASCII paths). -/
def lowerChar (c : Char) : Char :=
  if 'A' ≤ c && c ≤ 'Z' then Char.ofNat (c.toNat + 32) else c

/-- Python `str.lower()`. -/
def pyLower (s : String) : String := String.mk (s.data.map lowerChar)

/-- `posixpath.join(a, b)` for two components, as CPython implements it. -/
def pyJoin (a b : String) : String :=
  if b.data.head? = some '/' then b
  else if a = "" || a.data.getLast? = some '/' then a ++ b
  else a ++ "/" ++ b

/-- `os.path.basename(p)`: everything after the last `'/'`. -/
def pyBasename (p : String) : String :=
  String.mk (p.data.foldl (fun acc c => if c = '/' then [] else acc ++ [c]) [])

/-- Index of the last occurrence of `c` in `l`, if any. -/
def rfindIdx (c : Char) (l : List Char) : Option Nat :=
  (l.reverse.findIdx? (· == c)).map (fun i => l.length - 1 - i)

/-- `posixpath.splitext(p)`, as CPython implements it: split at the last
dot, provided it lies after the last separator and at least one character
of the file name before it is not a dot. -/
def pySplitext (p : String) : String × String :=
  let l := p.data
  let sepIdx : Int := match rfindIdx '/' l with
    | some i => (i : Int)
    | none => -1
  match rfindIdx '.' l with
  | none => (p, "")
  | some d =>
    if (d : Int) > sepIdx then
      let fnStart := (sepIdx + 1).toNat
      let mid := (l.drop fnStart).take (d - fnStart)
      if mid.any (· != '.') then
        (String.mk (l.take d), String.mk (l.drop d))
      else (p, "")
    else (p, "")

/-! ## Data model (`TSVInfo`, `TSVEntry`, `PKGHeader`) -/

structure TSVInfo where
  console : String
  type : String
deriving DecidableEq, Repr

/-- `TSVInfo.dir_path`: `os.path.join(self.console, self.type)`. -/
def TSVInfo.dir_path (i : TSVInfo) : String := pyJoin i.console i.type

structure TSVEntry where
  title_id : String
  region : String
  name : String
  content_id : String
  app_version : String
  update_version : String
  file_size : Int
  sha256 : String
  info : TSVInfo
deriving DecidableEq, Repr

/-- `TSVEntry.file_name`: destination file name for a matched entry. -/
def TSVEntry.file_name (e : TSVEntry) (ext : String) : String :=
  if e.update_version ≠ "" then
    pyStrip e.name ++ " (" ++ pyStrip e.update_version ++ ") [" ++
      pyStrip e.title_id ++ "]" ++ ext
  else
    pyStrip e.name ++ " [" ++ pyStrip e.title_id ++ "]" ++ ext

structure PKGHeader where
  file : String
  magic : Nat
  pkg_revision : Nat
  pkg_type : Nat
  content_id_bytes : List Nat
deriving DecidableEq, Repr

/-- Errors `PKGHeader.load` can raise, both caught by the main loop. -/
inductive LoadErr where
  | ioError
  | structError
deriving DecidableEq, Repr

/-- Fatal (uncaught) exceptions of the per-file pipeline. -/
inductive Fatal where
  | decodeError (path : String)
deriving DecidableEq, Repr

/-- Big-endian integer value of a byte list. -/
def beNat (bs : List Nat) : Nat := bs.foldl (fun a b => a * 256 + b) 0

/-- `PKGHeader.load`: `struct.unpack(">IHH40x36s12x", f.read(96))` on the
first 96 bytes of the file.  `content?` is the file's byte content,
`none` when opening fails (`IOError`); fewer than 96 bytes available is a
`struct.error`.  Both are caught by the caller. -/
def PKGHeader.load (filename : String) (content? : Option (List Nat)) :
    Except LoadErr PKGHeader :=
  match content? with
  | none => .error .ioError
  | some bs =>
    let chunk := bs.take 96
    if chunk.length < 96 then .error .structError
    else
      .ok { file := filename
            magic := beNat (chunk.take 4)
            pkg_revision := beNat ((chunk.drop 4).take 2)
            pkg_type := beNat ((chunk.drop 6).take 2)
            content_id_bytes := (chunk.drop 48).take 36 }

/-- `PKGHeader.is_valid`: the magic constant check. -/
def PKGHeader.is_valid (h : PKGHeader) : Bool := h.magic == 0x7F504B47

/-- `PKGHeader.content_id`: ASCII-decode the 36-byte content-id field; a
decode failure is re-raised (fatal) after printing the file path. -/
def PKGHeader.content_id (h : PKGHeader) : Except Fatal String :=
  if h.content_id_bytes.all (· < 128) then
    .ok (String.mk (h.content_id_bytes.map Char.ofNat))
  else .error (.decodeError h.file)

/-! ## The three match predicates -/

/-- `predicate_filename`: tier-1 predicate on filename-derived parts. -/
def predicate_filename (entry : TSVEntry) (content_id title_id patch : String) :
    Bool :=
  let patch := lstripZeros patch
  if patch ≠ "" then
    entry.title_id == title_id && entry.update_version == patch
  else
    entry.content_id == content_id && entry.title_id == title_id

/-- `predicate_content_id_and_size`: tier-2 predicate. -/
def predicate_content_id_and_size (entry : TSVEntry) (content_id : String)
    (size : Int) : Bool :=
  entry.content_id == content_id && entry.file_size == size

/-- `predicate_hash`: tier-3 predicate. -/
def predicate_hash (entry : TSVEntry) (sha256 : String) : Bool :=
  entry.sha256 == sha256

/-! ## The filename regex

`pkg_re = re.compile(r"^([A-Z]{2}\d{4}-([A-Z]{4}\d{5})_00-.*?)(?:_patch_(.*?))?\.pkg$", re.I)`

Direct deterministic model of Python's leftmost / lazy backtracking
semantics for this particular pattern.  `re.I` case-folding is modelled
including the two extra Unicode case pairs Python's engine uses for
ASCII letters (`ſ`→`s`, `K`→`k`); `\d` is modelled as ASCII digits (the
Python class also accepts other Unicode decimal digits, which never
occur in the identifiers in scope); `.` does not match a newline, and
`$` also matches just before a single trailing newline. -/

/-- Case-folding used by `re.IGNORECASE` for matching against ASCII
letter classes and literals. -/
def reFoldChar (c : Char) : Char :=
  if 'A' ≤ c && c ≤ 'Z' then Char.ofNat (c.toNat + 32)
  else if c = Char.ofNat 0x212A then 'k'
  else if c = Char.ofNat 0x17F then 's'
  else c

/-- Does `c` match `[A-Z]` under `re.I`? -/
def reAlpha (c : Char) : Bool := 'a' ≤ reFoldChar c && reFoldChar c ≤ 'z'

/-- Does `c` match `\d` (ASCII fragment)? -/
def reDigit (c : Char) : Bool := '0' ≤ c && c ≤ '9'

/-- Case-insensitive literal prefix test. -/
def ciStartsWith (pat : List Char) (s : List Char) : Bool :=
  (s.take pat.length).map reFoldChar == pat

/-- Match `\.pkg$` against the whole remainder `r`, with a lazy `.*?`
prefix captured: returns the captured prefix when `r = P ++ ".pkg" ++ e`
with `e` empty or a single newline and `P` newline-free. -/
def matchPkgEnd (r : List Char) : Option (List Char) :=
  let core := if r.getLast? = some '\n' then r.dropLast else r
  if core.length < 4 then none
  else
    let p := core.take (core.length - 4)
    let tl := core.drop (core.length - 4)
    if tl.map reFoldChar == ['.', 'p', 'k', 'g'] && !p.contains '\n' then
      some p
    else none

/-- Try to finish the match at the current position: the optional
`(?:_patch_(.*?))?` group (preferred, as `?` is greedy) followed by
`\.pkg$`, or the empty group followed by `\.pkg$`.  Returns
`some patchGroup?` on success. -/
def tryHere (l : List Char) : Option (Option (List Char)) :=
  if ciStartsWith ['_', 'p', 'a', 't', 'c', 'h', '_'] l then
    match matchPkgEnd (l.drop 7) with
    | some p => some (some p)
    | none => if matchPkgEnd l = some [] then some none else none
  else if matchPkgEnd l = some [] then some none else none

/-- Lazy `.*?` loop: try to finish at the current position first, then
consume one (non-newline) character into the group-1 tail and recurse.
Returns `(group1Tail, patchGroup?)`. -/
def matchTail : List Char → Option (List Char × Option (List Char))
  | [] =>
    match tryHere [] with
    | some r => some ([], r)
    | none => none
  | c :: rest =>
    match tryHere (c :: rest) with
    | some r => some ([], r)
    | none =>
      if c = '\n' then none
      else (matchTail rest).map (fun mr => (c :: mr.1, mr.2))

/-- `pkg_re.findall(basename)[0]`, i.e. the tuple
`(content_id, title_id, patch)` extracted from a file's base name, or
`none` when the pattern does not match.  A non-participating patch group
is the empty string, as with Python's `findall`. -/
def pkg_re_match (s : String) : Option (String × String × String) :=
  match s.data with
  | c1 :: c2 :: d1 :: d2 :: d3 :: d4 :: h1 ::
    a1 :: a2 :: a3 :: a4 :: e1 :: e2 :: e3 :: e4 :: e5 ::
    u0 :: z1 :: z2 :: h2 :: tail =>
    if reAlpha c1 && reAlpha c2 && reDigit d1 && reDigit d2 && reDigit d3 &&
       reDigit d4 && h1 = '-' && reAlpha a1 && reAlpha a2 && reAlpha a3 &&
       reAlpha a4 && reDigit e1 && reDigit e2 && reDigit e3 && reDigit e4 &&
       reDigit e5 && u0 = '_' && z1 = '0' && z2 = '0' && h2 = '-' then
      match matchTail tail with
      | some (m, patch?) =>
        some (String.mk ([c1, c2, d1, d2, d3, d4, h1, a1, a2, a3, a4,
                          e1, e2, e3, e4, e5, u0, z1, z2, h2] ++ m),
              String.mk [a1, a2, a3, a4, e1, e2, e3, e4, e5],
              String.mk (patch?.getD []))
      | none => none
    else none
  | _ => none

/-! ## Catalog row loading (`row_val` and the `TSVEntry(...)` construction) -/

/-- Errors of the row-to-entry conversion.  `indexError` models the
uncaught `IndexError` of `row[headers.index(col)]` when the row is
shorter than the header; `valueError` models the uncaught `ValueError`
of `int(float(...))` on a malformed size field.  (The `ValueError` of
`headers.index` is caught inside `row_val` and is not an error.) -/
inductive RowErr where
  | indexError
  | valueError
deriving DecidableEq, Repr

/-- `row_val(headers, row, col_name)`: look a column up by header name;
a missing column name yields `""` (the caught `ValueError`). -/
def row_val (headers row : List String) (col_name : String) :
    Except RowErr String :=
  match headers.findIdx? (· == col_name) with
  | none => .ok ""
  | some i =>
    match row.get? i with
    | some v => .ok v
    | none => .error .indexError

/-- Decimal value of a digit list. -/
def digitsVal (l : List Char) : Nat :=
  l.foldl (fun a c => a * 10 + (c.toNat - 48)) 0

/-- `int(float(s))` for the simple numeric strings of the `File Size`
column: optional sign, digits, optional fractional part (truncated
toward zero).  Other `float` syntax (exponents, `inf`, …) does not occur
in the catalogs and is mapped, like genuinely malformed input, to the
uncaught `ValueError`.  Binary-float rounding is not modelled. -/
def pyFloatInt (s : String) : Except RowErr Int :=
  let l := s.data
  let sl : Int × List Char :=
    match l with
    | '-' :: t => (-1, t)
    | '+' :: t => (1, t)
    | t => (1, t)
  let intPart := sl.2.takeWhile Char.isDigit
  let rest := sl.2.dropWhile Char.isDigit
  match rest with
  | [] =>
    if intPart.isEmpty then .error .valueError
    else .ok (sl.1 * digitsVal intPart)
  | '.' :: frac =>
    if frac.all Char.isDigit && !(intPart.isEmpty && frac.isEmpty) then
      .ok (sl.1 * digitsVal intPart)
    else .error .valueError
  | _ => .error .valueError

/-- The named columns the loader extracts from a catalog row. -/
def tsvColumns : List String :=
  ["Title ID", "Region", "Name", "Content ID", "App Version",
   "Update Version", "File Size", "SHA256"]

/-- The `TSVEntry(row_val(...), ..., int(float(row_val(...) or "0")), ...)`
construction of the loader's row loop. -/
def makeTSVEntry (headers row : List String) (inf : TSVInfo) :
    Except RowErr TSVEntry := do
  let title_id ← row_val headers row "Title ID"
  let region ← row_val headers row "Region"
  let name ← row_val headers row "Name"
  let content_id ← row_val headers row "Content ID"
  let app_version ← row_val headers row "App Version"
  let update_version ← row_val headers row "Update Version"
  let fsRaw ← row_val headers row "File Size"
  let file_size ← pyFloatInt (if fsRaw = "" then "0" else fsRaw)
  let sha ← row_val headers row "SHA256"
  pure { title_id := title_id, region := region, name := name,
         content_id := content_id, app_version := app_version,
         update_version := update_version, file_size := file_size,
         sha256 := sha, info := inf }

/-! ## File-name sanitisation -/

/-- The characters `re.sub(r"[<>:\"/\\|?*]", "_", ·)` replaces. -/
def badChar (c : Char) : Bool :=
  c == '<' || c == '>' || c == ':' || c == '"' || c == '/' || c == '\\' ||
  c == '|' || c == '?' || c == '*'

def replChar (c : Char) : Char := if badChar c then '_' else c

def replaceBadList (l : List Char) : List Char := l.map replChar

/-- The part of `sanitize_file_name` after normalisation:
`re.sub(r"[<>:\"/\\|?*]", "_", value).strip()`. -/
def sanitizeCore (v : String) : String :=
  String.mk (stripList (replaceBadList v.data))

/-- `sanitize_file_name(value)`: NFC-normalise, replace the reserved
characters with `_`, strip surrounding whitespace.  `nfc` stands for the
external `unicodedata.normalize("NFC", ·)`. -/
def sanitize_file_name (nfc : String → String) (value : String) : String :=
  sanitizeCore (nfc value)

/-! ## The per-file pipeline of `main` -/

/-- An on-disk package file as the pipeline observes it.  `content` is
the file's bytes (`none` when the file cannot be opened); `sha256` is
the hex digest `sha256sum` would return for it, treated as an oracle. -/
structure PkgFile where
  path : String
  content : Option (List Nat)
  sha256 : String
deriving DecidableEq, Repr

/-- `os.path.getsize` on a readable file. -/
def PkgFile.size (f : PkgFile) : Int := ((f.content.getD []).length : Int)

/-- The configuration bits the planning loop reads. -/
structure Config where
  pkg_dir : String
  copy_dir : Option String
  skip_hash : Bool
deriving DecidableEq, Repr

/-- One of the three identification tiers. -/
inductive Tier where
  | filename
  | headerSize
  | hash
deriving DecidableEq, Repr

/-- Tier 1 or tier 2 (exactly one of them runs, depending on whether the
base name matches `pkg_re`), together with which one was attempted.  In
the tier-2 branch `pkg_header.content_id()` is evaluated (and its
decode error is fatal) as soon as one catalog entry is tested. -/
def matchTier12 (entries : List TSVEntry) (f : PkgFile) (h : PKGHeader) :
    Except Fatal (Option TSVEntry × Tier) :=
  match pkg_re_match (pyBasename f.path) with
  | some (content_id, title_id, patch) =>
    .ok (entries.find? (fun e => predicate_filename e content_id title_id patch),
         .filename)
  | none =>
    if entries.isEmpty then .ok (none, .headerSize)
    else
      match h.content_id with
      | .error e => .error e
      | .ok cid =>
        .ok (entries.find? (fun e => predicate_content_id_and_size e cid f.size),
             .headerSize)

/-- The full tiered match (lines 232–245 of `main`): tier 1 or 2, then,
when that found nothing and hashing is enabled, tier 3.  Also returns
the list of attempted tiers, in order. -/
def matchEntryT (entries : List TSVEntry) (f : PkgFile) (h : PKGHeader)
    (skip_hash : Bool) : Except Fatal (Option TSVEntry × List Tier) :=
  match matchTier12 entries f h with
  | .error e => .error e
  | .ok (m, t) =>
    if m.isNone && !skip_hash then
      .ok (entries.find? (fun e => predicate_hash e f.sha256), [t, .hash])
    else .ok (m, [t])

/-! ### The duplicate-destination counter (`dupe_paths`) -/

/-- Python-`dict` lookup on an association list. -/
def dictGet? (m : List (String × Nat)) (k : String) : Option Nat :=
  match m with
  | [] => none
  | (k', v') :: rest => if k' = k then some v' else dictGet? rest k

/-- Python-`dict` assignment on an association list. -/
def dictSet (m : List (String × Nat)) (k : String) (v : Nat) :
    List (String × Nat) :=
  match m with
  | [] => [(k, v)]
  | (k', v') :: rest =>
    if k' = k then (k, v) :: rest else (k', v') :: dictSet rest k v

/-- Result of the duplicate-path check for one file. -/
structure DedupOut where
  dupe_paths : List (String × Nat)
  dest_path : String
  log : Option String
  /-- Instrumentation: `true` when the path was allocated by the
  first-occurrence branch (no `" (N)"` suffix). -/
  plain : Bool
deriving DecidableEq, Repr

/-- Lines 262–271 of `main`: look the lower-cased destination path up in
`dupe_paths`; on a repeat, bump the counter and insert `" (N)"` before
the extension of the destination file name, logging the rename; on a
first occurrence, record the path with counter `0`. -/
def dedupStep (dupe : List (String × Nat)) (dest_dir dest_file dest_path : String) :
    DedupOut :=
  let key := pyLower dest_path
  match dictGet? dupe key with
  | some n =>
    let dupe' := dictSet dupe key (n + 1)
    let se := pySplitext dest_file
    let newPath := pyJoin dest_dir
      (se.1 ++ " (" ++ toString (n + 1) ++ ")" ++ se.2)
    { dupe_paths := dupe'
      dest_path := newPath
      log := some ("Encountered duplicate destination file path " ++ dest_path ++
                   ", renamed to " ++ pyBasename newPath)
      plain := false }
  | none =>
    { dupe_paths := dictSet dupe key 0
      dest_path := dest_path
      log := none
      plain := true }

/-! ### The planning loop -/

/-- State of the planning loop.  `logs` collects the `print` output of
the loop, `mkdirs` the directories passed to `os.makedirs`;
`plain_dests` is instrumentation recording the destination paths
allocated without a `" (N)"` suffix. -/
structure PlanState where
  dupe_paths : List (String × Nat)
  move_files : List (String × String)
  unhandled_files : List String
  logs : List String
  mkdirs : List String
  plain_dests : List String
deriving DecidableEq, Repr

def initState : PlanState :=
  { dupe_paths := [], move_files := [], unhandled_files := [],
    logs := [], mkdirs := [], plain_dests := [] }

/-- The `print`/state update for an attempted hash tier ("Trying
SHA256 for {file}…", printed just before hashing). -/
def hashLogState (f : PkgFile) (ts : List Tier) (st : PlanState) : PlanState :=
  if Tier.hash ∈ ts then
    { st with logs := st.logs ++ ["Trying SHA256 for " ++ f.path ++ "…"] }
  else st

/-- Lines 252–276 of `main`: destination computation, dedup check,
directory creation, and (when source and destination differ) the move
append, for a file matched to `entry`. -/
def processMatched (nfc : String → String) (cfg : Config) (entry : TSVEntry)
    (f : PkgFile) (st : PlanState) : PlanState :=
  let dest_dir :=
    match cfg.copy_dir with
    | some c => pyJoin c entry.info.dir_path
    | none => pyJoin cfg.pkg_dir entry.info.dir_path
  let pkg_ext := (pySplitext f.path).2
  let dest_file := sanitize_file_name nfc (entry.file_name pkg_ext)
  let dest_path := pyJoin dest_dir dest_file
  let d := dedupStep st.dupe_paths dest_dir dest_file dest_path
  let st :=
    { st with
      dupe_paths := d.dupe_paths
      logs := st.logs ++ d.log.toList
      plain_dests := st.plain_dests ++ (if d.plain then [d.dest_path] else [])
      mkdirs := st.mkdirs ++ [dest_dir] }
  if f.path ≠ d.dest_path then
    { st with move_files := st.move_files ++ [(f.path, d.dest_path)] }
  else st

/-- Lines 224–276 of `main`: process one package file.  A header that
cannot be read (`struct.error` / `IOError`) or whose magic is invalid
skips the file silently; otherwise the tiered match runs, an unmatched
file is recorded as unhandled, and a matched file gets a destination
computed, dedup-checked, its directory created, and (when the
destination differs from the source) a move pair appended. -/
def processOne (nfc : String → String) (cfg : Config) (entries : List TSVEntry)
    (f : PkgFile) (st : PlanState) : Except Fatal PlanState :=
  match PKGHeader.load f.path f.content with
  | .error _ => .ok st
  | .ok h =>
    if !h.is_valid then .ok st
    else
      match matchEntryT entries f h cfg.skip_hash with
      | .error e => .error e
      | .ok (m, ts) =>
        let st := hashLogState f ts st
        match m with
        | none => .ok { st with unhandled_files := st.unhandled_files ++ [f.path] }
        | some entry => .ok (processMatched nfc cfg entry f st)

/-- The planning loop over all found package files. -/
def processFiles (nfc : String → String) (cfg : Config) (entries : List TSVEntry) :
    List PkgFile → PlanState → Except Fatal PlanState
  | [], st => .ok st
  | f :: rest, st =>
    match processOne nfc cfg entries f st with
    | .error e => .error e
    | .ok st' => processFiles nfc cfg entries rest st'

/-! ### The transfer executor (lines 282–306 of `main`) -/

/-- Observable actions of the transfer loop.  `printStats` stands for
the elapsed-time/throughput line (its wall-clock contents are not
modelled; the byte size it reports is). -/
inductive XEffect where
  | printCopy (src dest : String)
  | printMove (src dest : String)
  | copyFile (src dest : String)
  | moveFile (src dest : String)
  | printStats (size : Int)
deriving DecidableEq, Repr

/-- Does this effect mutate the filesystem? -/
def isMutationEffect : XEffect → Bool
  | .copyFile _ _ => true
  | .moveFile _ _ => true
  | _ => false

/-- The transfer loop.  `exists_ p` and `fsize p` model
`os.path.exists(p)` and `os.path.getsize(p)` against the filesystem as
it is when the loop starts (mutations by earlier iterations of a real
run are not modelled; no theorem below depends on them).  A pair whose
destination already exists with the source's exact size is skipped;
otherwise the operation is announced, performed unless `dry` is set,
and timed (real runs only). -/
def execTransfers (dry copyMode : Bool) (exists_ : String → Bool)
    (fsize : String → Int) : List (String × String) → List XEffect
  | [] => []
  | (src, dest) :: rest =>
    if exists_ dest && fsize dest == fsize src then
      execTransfers dry copyMode exists_ fsize rest
    else
      (if copyMode then
        [XEffect.printCopy src dest] ++
          (if !dry then [XEffect.copyFile src dest] else [])
       else
        [XEffect.printMove src dest] ++
          (if !dry then [XEffect.moveFile src dest] else [])) ++
      (if !dry then [XEffect.printStats (fsize src)] else []) ++
      execTransfers dry copyMode exists_ fsize rest

/-- Result of a whole run: the planning state, the transfer-loop
effects, and the end-of-run unhandled-file report.  When no move pair
was planned, `main` prints "There's nothing to do!" and returns before
the transfer loop and the report. -/
structure RunResult where
  plan : PlanState
  transfers : List XEffect
  report : List String
  nothingToDo : Bool
deriving DecidableEq, Repr

/-- The post-planning stage of `main`: early return ("There's nothing
to do!") when no move pair was planned, otherwise the transfer loop and
the unhandled-file report. -/
def runStage2 (cfg : Config) (dry : Bool) (exists_ : String → Bool)
    (fsize : String → Int) (st : PlanState) : RunResult :=
  if st.move_files = [] then
    { plan := st, transfers := [], report := [], nothingToDo := true }
  else
    { plan := st
      transfers := execTransfers dry cfg.copy_dir.isSome exists_ fsize
                     st.move_files
      report := st.unhandled_files.map (fun p =>
        "Couldn't " ++ (if cfg.copy_dir.isSome then "copy" else "move") ++
        " " ++ p ++ " because it was not found in the TSV files")
      nothingToDo := false }

/-- Lines 224–306 of `main` (after the catalog and file list are in
memory): plan all files, then run the transfer loop and print the
unhandled report — unless nothing is to be done. -/
def runMain (nfc : String → String) (cfg : Config) (dry : Bool)
    (entries : List TSVEntry) (files : List PkgFile)
    (exists_ : String → Bool) (fsize : String → Int) :
    Except Fatal RunResult :=
  match processFiles nfc cfg entries files initState with
  | .error e => .error e
  | .ok st => .ok (runStage2 cfg dry exists_ fsize st)

/-! ## Concrete scenario data -/

/-- 96 bytes whose first 4 bytes are the valid magic `7F 50 4B 47`. -/
def validHdrBytes : List Nat := [0x7F, 0x50, 0x4B, 0x47] ++ List.replicate 92 0

/-- The header `PKGHeader.load` parses out of `validHdrBytes`. -/
def hdrC2 : PKGHeader :=
  { file := "pkgs/UP1234-ABCD12345_00-TESTGAME.pkg", magic := 0x7F504B47,
    pkg_revision := 0, pkg_type := 0, content_id_bytes := List.replicate 36 0 }

/-- The catalog record of the spec's end-to-end scenario. -/
def eC2 : TSVEntry :=
  { title_id := "ABCD12345", region := "", name := "Test Game",
    content_id := "UP1234-ABCD12345_00", app_version := "",
    update_version := "", file_size := 0, sha256 := "",
    info := { console := "PS3", type := "game" } }

/-- The same record with the content id the filename actually yields. -/
def eC2full : TSVEntry := { eC2 with content_id := "UP1234-ABCD12345_00-TESTGAME" }

/-- The scenario's package file, with a valid magic header. -/
def fC2 : PkgFile :=
  { path := "pkgs/UP1234-ABCD12345_00-TESTGAME.pkg",
    content := some validHdrBytes, sha256 := "aaaa" }

/-- Move-from-`pkgs`-to-`out` configuration with hashing enabled. -/
def cfgC2 : Config := { pkg_dir := "pkgs", copy_dir := some "out", skip_hash := false }

/-- Catalog entry matched (by hash) by the two files `fOne`/`fTwo`. -/
def e3a : TSVEntry :=
  { title_id := "T", region := "", name := "N.v2", content_id := "",
    app_version := "", update_version := "", file_size := 0, sha256 := "h1",
    info := { console := "PS3", type := "game" } }

/-- Catalog entry whose computed destination equals the suffixed
destination handed to `fTwo`. -/
def e3b : TSVEntry := { e3a with name := "N (1).v2", sha256 := "h2" }

def fOne : PkgFile := { path := "one", content := some validHdrBytes, sha256 := "h1" }

def fTwo : PkgFile := { path := "two", content := some validHdrBytes, sha256 := "h1" }

def fThree : PkgFile := { path := "three", content := some validHdrBytes, sha256 := "h2" }

/-! ## C1 — the filename-tier predicate -/

/-- C1: for every catalog entry and filename-derived triple, when the
patch with leading zeros stripped is non-empty `predicate_filename`
holds exactly when `title_id` and `update_version` match; when it is
empty, exactly when `content_id` and `title_id` match. -/
theorem predicate_filename_spec (e : TSVEntry) (cid tid patch : String) :
    (lstripZeros patch ≠ "" →
      predicate_filename e cid tid patch =
        (e.title_id == tid && e.update_version == lstripZeros patch)) ∧
    (lstripZeros patch = "" →
      predicate_filename e cid tid patch =
        (e.content_id == cid && e.title_id == tid)) := by
  unfold predicate_filename
  constructor <;> intro h <;> simp [h]

/-- Witness for C1 at a concrete entry and patch string. -/
theorem predicate_filename_spec_witness :
    predicate_filename eC2 "UP1234-ABCD12345_00" "ABCD12345" "007" =
      (eC2.title_id == "ABCD12345" && eC2.update_version == lstripZeros "007") :=
  (predicate_filename_spec eC2 "UP1234-ABCD12345_00" "ABCD12345" "007").1
    (by decide)

/-! ## C2 — the end-to-end rename scenario -/

/-- C2 counterexample: with the spec's catalog record
(`contentId = "UP1234-ABCD12345_00"`), the filename tier extracts the
full stem `"UP1234-ABCD12345_00-TESTGAME"` as content id, the predicate
rejects the record, no tier matches, and the pipeline plans no move at
all — the file ends up unhandled instead of being moved. -/
theorem filename_tier_truncated_content_id_fails :
    pkg_re_match (pyBasename fC2.path) =
      some ("UP1234-ABCD12345_00-TESTGAME", "ABCD12345", "") ∧
    predicate_filename eC2 "UP1234-ABCD12345_00-TESTGAME" "ABCD12345" "" = false ∧
    (processFiles id cfgC2 [eC2] [fC2] initState).map
        (fun st => (st.move_files, st.unhandled_files)) =
      .ok ([], ["pkgs/UP1234-ABCD12345_00-TESTGAME.pkg"]) :=
  ⟨rfl, rfl, rfl⟩

/-- C2 amended: with the catalog record's `contentId` equal to the full
filename stem `UP1234-ABCD12345_00-TESTGAME`, the pipeline matches the
file via the filename tier and plans its move to
`out/PS3/game/Test Game [ABCD12345].pkg`. -/
theorem end_to_end_full_content_id_moves :
    PKGHeader.load fC2.path fC2.content = .ok hdrC2 ∧
    matchTier12 [eC2full] fC2 hdrC2 = .ok (some eC2full, Tier.filename) ∧
    (processFiles id cfgC2 [eC2full] [fC2] initState).map (·.move_files) =
      .ok [("pkgs/UP1234-ABCD12345_00-TESTGAME.pkg",
            "out/PS3/game/Test Game [ABCD12345].pkg")] :=
  ⟨rfl, rfl, by decide⟩

/-! ## C3 — destination uniqueness -/

/-- C3 counterexample: `fTwo`'s destination is suffixed to
`out/PS3/game/N (1).v2 [T]`, but that suffixed path is never recorded in
the counter map, so `fThree` — whose computed destination is the same
path — is allocated it again: two distinct sources end up planned for
one destination within one run. -/
theorem duplicate_destination_reallocated :
    (processFiles id cfgC2 [e3a, e3b] [fOne, fTwo, fThree] initState).map
        (·.move_files) =
      .ok [("one", "out/PS3/game/N.v2 [T]"),
           ("two", "out/PS3/game/N (1).v2 [T]"),
           ("three", "out/PS3/game/N (1).v2 [T]")] := by
  decide

/-! ## C6 / C10 — silently skipped files -/

/-- A 96-byte file whose magic is not `0x7F504B47`. -/
def fBadMagic : PkgFile :=
  { path := "pkgs/bad.pkg", content := some (List.replicate 96 0), sha256 := "" }

/-- A file shorter than the 96-byte header (a `struct.error`). -/
def fShort : PkgFile :=
  { path := "pkgs/short.pkg", content := some (List.replicate 10 0), sha256 := "" }

/-- Unfolding lemma: one step of the planning loop. -/
theorem processFiles_cons (nfc : String → String) (cfg : Config)
    (entries : List TSVEntry) (f : PkgFile) (rest : List PkgFile)
    (st : PlanState) :
    processFiles nfc cfg entries (f :: rest) st =
      match processOne nfc cfg entries f st with
      | .error e => .error e
      | .ok st' => processFiles nfc cfg entries rest st' := rfl

/-- A file whose header cannot be read leaves the state untouched. -/
theorem processOne_load_error (nfc : String → String) (cfg : Config)
    (entries : List TSVEntry) (f : PkgFile) (st : PlanState) (e : LoadErr)
    (hload : PKGHeader.load f.path f.content = .error e) :
    processOne nfc cfg entries f st = .ok st := by
  unfold processOne
  rw [hload]

/-- A file with an invalid magic leaves the state untouched. -/
theorem processOne_invalid_magic (nfc : String → String) (cfg : Config)
    (entries : List TSVEntry) (f : PkgFile) (st : PlanState) (h : PKGHeader)
    (hload : PKGHeader.load f.path f.content = .ok h)
    (hmagic : h.is_valid = false) :
    processOne nfc cfg entries f st = .ok st := by
  unfold processOne
  rw [hload]
  simp [hmagic]

/-- C6: a package file whose header magic is not `0x7F504B47` is excluded
from all further processing without error: the planning state (move
pairs, unhandled list, logs, directory creations) is exactly what it
would be had the file not been present, and the remaining files are
processed identically. -/
theorem invalid_magic_skipped (nfc : String → String) (cfg : Config)
    (entries : List TSVEntry) (f : PkgFile) (rest : List PkgFile)
    (st : PlanState) (h : PKGHeader)
    (hload : PKGHeader.load f.path f.content = .ok h)
    (hmagic : h.is_valid = false) :
    processFiles nfc cfg entries (f :: rest) st =
      processFiles nfc cfg entries rest st := by
  rw [processFiles_cons,
    processOne_invalid_magic nfc cfg entries f st h hload hmagic]

/-- Witness for C6: a concrete all-zero header fails the magic check and
the file drops out of the run. -/
theorem invalid_magic_skipped_witness :
    processFiles id cfgC2 [eC2] [fBadMagic] initState =
      processFiles id cfgC2 [eC2] [] initState :=
  invalid_magic_skipped id cfgC2 [eC2] fBadMagic [] initState
    { file := "pkgs/bad.pkg", magic := 0, pkg_revision := 0, pkg_type := 0,
      content_id_bytes := List.replicate 36 0 }
    (by decide) (by decide)

/-- C10: a package file whose header cannot be read — `struct.error`
(file shorter than 96 bytes) or `IOError` (unopenable) — is skipped
exactly like a file with invalid magic: the planning state is unchanged
and processing continues with the remaining files. -/
theorem header_error_skipped (nfc : String → String) (cfg : Config)
    (entries : List TSVEntry) (f : PkgFile) (rest : List PkgFile)
    (st : PlanState) (e : LoadErr)
    (hload : PKGHeader.load f.path f.content = .error e) :
    processFiles nfc cfg entries (f :: rest) st =
      processFiles nfc cfg entries rest st := by
  rw [processFiles_cons, processOne_load_error nfc cfg entries f st e hload]

/-- Witness for C10: a 10-byte file raises `struct.error` and is
skipped; an unopenable file raises `IOError` and is skipped. -/
theorem header_error_skipped_witness :
    processFiles id cfgC2 [eC2] [fShort] initState =
      processFiles id cfgC2 [eC2] [] initState ∧
    processFiles id cfgC2 [eC2]
        [{ path := "gone.pkg", content := none, sha256 := "" }] initState =
      processFiles id cfgC2 [eC2] [] initState :=
  ⟨header_error_skipped id cfgC2 [eC2] fShort [] initState .structError (by decide),
   header_error_skipped id cfgC2 [eC2]
     { path := "gone.pkg", content := none, sha256 := "" } [] initState
     .ioError (by decide)⟩

/-! ## C7 — when the hash tier runs -/

/-- The tier reported by `matchTier12` is never the hash tier. -/
theorem matchTier12_not_hash (entries : List TSVEntry) (f : PkgFile)
    (h : PKGHeader) (m : Option TSVEntry) (t : Tier)
    (hmt : matchTier12 entries f h = .ok (m, t)) : t ≠ Tier.hash := by
  unfold matchTier12 at hmt
  split at hmt
  · cases hmt
    simp
  · split at hmt
    · cases hmt
      simp
    · split at hmt
      · cases hmt
      · cases hmt
        simp

/-- C7 counterexample: for the scenario file (whose name matches the
pattern) and a catalog entry tier 1 rejects, the SHA-256 tier is
attempted even though tier 2 was never attempted — refuting "the hash
tier is attempted only when tier 2 has been attempted and failed". -/
theorem hash_tier_without_tier2 :
    matchEntryT [eC2] fC2 hdrC2 false =
      .ok (none, [Tier.filename, Tier.hash]) ∧
    Tier.headerSize ∉ [Tier.filename, Tier.hash] :=
  ⟨rfl, by decide⟩

/-- C7 amended: the SHA-256 tier is attempted exactly when the tier
that actually ran (tier 1 if the base name matches `pkg_re`, tier 2
otherwise) found no entry and hashing is not disabled; in particular it
can run without tier 2 ever being attempted. -/
theorem hash_tier_iff_active_tier_failed (entries : List TSVEntry)
    (f : PkgFile) (h : PKGHeader) (skip : Bool) (m : Option TSVEntry)
    (t : Tier) (m' : Option TSVEntry) (ts : List Tier)
    (h12 : matchTier12 entries f h = .ok (m, t))
    (hAll : matchEntryT entries f h skip = .ok (m', ts)) :
    Tier.hash ∈ ts ↔ (skip = false ∧ m = none) := by
  have ht := matchTier12_not_hash entries f h m t h12
  unfold matchEntryT at hAll
  rw [h12] at hAll
  cases skip <;> cases m <;> simp at hAll <;>
    rcases hAll with ⟨hAll1, hAll2⟩ <;> subst hAll2 <;>
    simp [ht, Ne.symm ht]

/-- Witness for C7's amended theorem, at the counterexample's inputs. -/
theorem hash_tier_iff_active_tier_failed_witness :
    Tier.hash ∈ ([Tier.filename, Tier.hash] : List Tier) ↔
      ((false : Bool) = false ∧ (none : Option TSVEntry) = none) :=
  hash_tier_iff_active_tier_failed [eC2] fC2 hdrC2 false none Tier.filename
    none [Tier.filename, Tier.hash] rfl rfl

/-! ## C4 — the `" (N)"` suffix sequence -/

theorem dictGet?_dictSet_self (m : List (String × Nat)) (k : String) (v : Nat) :
    dictGet? (dictSet m k v) k = some v := by
  induction m with
  | nil => simp [dictSet, dictGet?]
  | cons p rest ih =>
    obtain ⟨k', v'⟩ := p
    by_cases h : k' = k <;> simp [dictSet, dictGet?, h, ih]

/-- The sequence of dedup decisions the planning loop makes for a list
of computed `(destination directory, destination file name)` pairs,
feeding `dedupStep` exactly as `processOne` does. -/
def planDests (dupe : List (String × Nat)) :
    List (String × String) → List (String × Option String)
  | [] => []
  | (dir, file) :: rest =>
    let d := dedupStep dupe dir file (pyJoin dir file)
    (d.dest_path, d.log) :: planDests d.dupe_paths rest

/-- Modelled from the spec: C4's collision policy for the repeats — the
k-th entry of this list carries the `" (n+k)"` suffix inserted before
the extension, plus the rename log line. -/
def expectedDests (n : Nat) :
    List (String × String) → List (String × Option String)
  | [] => []
  | (dir, file) :: rest =>
    let se := pySplitext file
    let np := pyJoin dir (se.1 ++ " (" ++ toString n ++ ")" ++ se.2)
    (np,
     some ("Encountered duplicate destination file path " ++ pyJoin dir file ++
           ", renamed to " ++ pyBasename np)) :: expectedDests (n + 1) rest

/-- Once the counter for `L` holds `n`, every further computed
destination lowering to `L` gets suffix `n+1`, `n+2`, …, each with a
rename log. -/
theorem planDests_all_repeats (L : String) :
    ∀ (inputs : List (String × String)) (n : Nat) (dupe : List (String × Nat)),
    (∀ x ∈ inputs, pyLower (pyJoin x.1 x.2) = L) →
    dictGet? dupe L = some n →
    planDests dupe inputs = expectedDests (n + 1) inputs := by
  intro inputs
  induction inputs with
  | nil => intro n dupe _ _; rfl
  | cons x rest ih =>
    intro n dupe hall hget
    obtain ⟨dir, file⟩ := x
    have hk : pyLower (pyJoin dir file) = L := hall (dir, file) (List.mem_cons_self _ _)
    have hrest : ∀ y ∈ rest, pyLower (pyJoin y.1 y.2) = L := by
      intro y hy; exact hall y (by simp [hy])
    simp only [planDests, expectedDests, dedupStep, hk, hget]
    congr 1
    exact ih (n + 1) _ hrest (dictGet?_dictSet_self _ _ _)

/-- C4: when several files map case-insensitively to the same computed
destination path (all lowering to `L`, with `L` not yet in the counter
map), the first keeps its unsuffixed path with no log, and the k-th
repeat gets `" (k)"` inserted before the extension of its destination
file name, the counter incrementing once per repeat, with each rename
logged. -/
theorem dedup_suffix_sequence (L dir file : String)
    (rest : List (String × String)) (dupe : List (String × Nat))
    (hall : ∀ x ∈ (dir, file) :: rest, pyLower (pyJoin x.1 x.2) = L)
    (hfresh : dictGet? dupe L = none) :
    planDests dupe ((dir, file) :: rest) =
      (pyJoin dir file, none) :: expectedDests 1 rest := by
  have hk : pyLower (pyJoin dir file) = L := hall (dir, file) (List.mem_cons_self _ _)
  have hrest : ∀ y ∈ rest, pyLower (pyJoin y.1 y.2) = L := by
    intro y hy; exact hall y (by simp [hy])
  simp only [planDests, dedupStep, hk, hfresh]
  congr 1
  exact planDests_all_repeats L rest 0 _ hrest (dictGet?_dictSet_self _ _ _)

/-- Witness for C4: three files whose destinations collide only
case-insensitively get the sequence `a.pkg`, `A (1).pkg`, `a (2).PKG`. -/
theorem dedup_suffix_sequence_witness :
    planDests [] [("out", "a.pkg"), ("out", "A.pkg"), ("out", "a.PKG")] =
      (pyJoin "out" "a.pkg", none) ::
        expectedDests 1 [("out", "A.pkg"), ("out", "a.PKG")] :=
  dedup_suffix_sequence "out/a.pkg" "out" "a.pkg"
    [("out", "A.pkg"), ("out", "a.PKG")] [] (by decide) (by decide)

/-! ## C3 amended — what the counter map does guarantee -/

theorem dictGet?_dictSet_ne_none (m : List (String × Nat)) (k k' : String)
    (v : Nat) (h : dictGet? m k' ≠ none) :
    dictGet? (dictSet m k v) k' ≠ none := by
  induction m with
  | nil => simp [dictGet?] at h
  | cons p rest ih =>
    obtain ⟨a, b⟩ := p
    by_cases hak : a = k <;> by_cases hkk : k = k' <;>
      by_cases hak' : a = k' <;>
      simp_all [dictGet?, dictSet]

/-- The invariant the duplicate counter maintains: every destination
allocated without a suffix has its lower-cased form registered in the
map, and those destinations are pairwise distinct case-insensitively. -/
def DedupInv (st : PlanState) : Prop :=
  st.plain_dests.Pairwise (fun a b => pyLower a ≠ pyLower b) ∧
  ∀ p ∈ st.plain_dests, dictGet? st.dupe_paths (pyLower p) ≠ none

theorem dedupStep_inv (dupe : List (String × Nat)) (dir file path : String)
    (plain : List String)
    (hpair : plain.Pairwise (fun a b => pyLower a ≠ pyLower b))
    (hmem : ∀ p ∈ plain, dictGet? dupe (pyLower p) ≠ none) :
    (plain ++ (if (dedupStep dupe dir file path).plain then
        [(dedupStep dupe dir file path).dest_path] else [])).Pairwise
      (fun a b => pyLower a ≠ pyLower b) ∧
    ∀ p ∈ plain ++ (if (dedupStep dupe dir file path).plain then
        [(dedupStep dupe dir file path).dest_path] else []),
      dictGet? (dedupStep dupe dir file path).dupe_paths (pyLower p) ≠ none := by
  cases hkey : dictGet? dupe (pyLower path) with
  | some n =>
    have hplain : (dedupStep dupe dir file path).plain = false := by
      simp [dedupStep, hkey]
    have hdp : (dedupStep dupe dir file path).dupe_paths =
        dictSet dupe (pyLower path) (n + 1) := by
      simp [dedupStep, hkey]
    simp only [hplain, hdp, Bool.false_eq_true, if_false, List.append_nil]
    refine ⟨hpair, ?_⟩
    intro p hp
    exact dictGet?_dictSet_ne_none _ _ _ _ (hmem p hp)
  | none =>
    have hplain : (dedupStep dupe dir file path).plain = true := by
      simp [dedupStep, hkey]
    have hdest : (dedupStep dupe dir file path).dest_path = path := by
      simp [dedupStep, hkey]
    have hdp : (dedupStep dupe dir file path).dupe_paths =
        dictSet dupe (pyLower path) 0 := by
      simp [dedupStep, hkey]
    simp only [hplain, hdest, hdp, if_true]
    constructor
    · rw [List.pairwise_append]
      refine ⟨hpair, List.pairwise_singleton _ _, ?_⟩
      intro a ha b hb
      rw [List.mem_singleton] at hb
      subst hb
      intro hcontra
      exact hmem a ha (hcontra ▸ hkey)
    · intro p hp
      rcases List.mem_append.mp hp with hpl | hpr
      · exact dictGet?_dictSet_ne_none _ _ _ _ (hmem p hpl)
      · rw [List.mem_singleton] at hpr
        subst hpr
        rw [dictGet?_dictSet_self]
        exact Option.some_ne_none _

theorem hashLogState_dedupInv (f : PkgFile) (ts : List Tier) (st : PlanState)
    (hinv : DedupInv st) : DedupInv (hashLogState f ts st) := by
  unfold hashLogState
  split
  · exact hinv
  · exact hinv

theorem processMatched_dedupInv (nfc : String → String) (cfg : Config)
    (entry : TSVEntry) (f : PkgFile) (st : PlanState) (hinv : DedupInv st) :
    DedupInv (processMatched nfc cfg entry f st) := by
  obtain ⟨hpair, hmem⟩ := hinv
  simp only [processMatched]
  split
  · exact dedupStep_inv st.dupe_paths _ _ _ st.plain_dests hpair hmem
  · exact dedupStep_inv st.dupe_paths _ _ _ st.plain_dests hpair hmem

theorem processOne_dedupInv (nfc : String → String) (cfg : Config)
    (entries : List TSVEntry) (f : PkgFile) (st st' : PlanState)
    (hinv : DedupInv st)
    (h : processOne nfc cfg entries f st = .ok st') : DedupInv st' := by
  unfold processOne at h
  split at h
  · cases h
    exact hinv
  · split at h
    · cases h
      exact hinv
    · split at h
      · cases h
      · split at h
        · cases h
          exact hashLogState_dedupInv f _ st hinv
        · cases h
          exact processMatched_dedupInv nfc cfg _ f _
            (hashLogState_dedupInv f _ st hinv)

theorem processFiles_dedupInv (nfc : String → String) (cfg : Config)
    (entries : List TSVEntry) :
    ∀ (files : List PkgFile) (st st' : PlanState), DedupInv st →
      processFiles nfc cfg entries files st = .ok st' → DedupInv st' := by
  intro files
  induction files with
  | nil =>
    intro st st' hinv h
    cases h
    exact hinv
  | cons f rest ih =>
    intro st st' hinv h
    rw [processFiles_cons] at h
    cases hone : processOne nfc cfg entries f st with
    | error e => rw [hone] at h; cases h
    | ok st1 =>
      rw [hone] at h
      exact ih st1 st' (processOne_dedupInv nfc cfg entries f st st1 hinv hone) h

/-- C3 amended: within one run, a destination path allocated by the
counter map's first-occurrence branch (i.e. without a `" (N)"` suffix)
is never allocated that way again — all such destinations are pairwise
distinct case-insensitively.  (Destinations produced by the suffixing
itself are not registered in the map and can coincide with a later
computed destination, as the counterexample shows.) -/
theorem plain_dests_pairwise_distinct (nfc : String → String) (cfg : Config)
    (entries : List TSVEntry) (files : List PkgFile) (st' : PlanState)
    (h : processFiles nfc cfg entries files initState = .ok st') :
    st'.plain_dests.Pairwise (fun a b => pyLower a ≠ pyLower b) :=
  (processFiles_dedupInv nfc cfg entries files initState st'
    ⟨by simp [initState], by simp [initState]⟩ h).1

/-- The planning state of the C3 scenario run. -/
def stC3 : PlanState :=
  (processFiles id cfgC2 [e3a, e3b] [fOne, fTwo, fThree] initState).toOption.getD
    initState

/-- Witness for C3's amended theorem at the counterexample scenario. -/
theorem plain_dests_pairwise_distinct_witness :
    stC3.plain_dests.Pairwise (fun a b => pyLower a ≠ pyLower b) :=
  plain_dests_pairwise_distinct id cfgC2 [e3a, e3b] [fOne, fTwo, fThree] stC3
    (by decide)

/-! ## C5 — idempotence of the sanitiser -/

theorem dropWhile_idem (p : Char → Bool) (l : List Char) :
    (l.dropWhile p).dropWhile p = l.dropWhile p := by
  induction l with
  | nil => rfl
  | cons c rest ih =>
    by_cases h : p c
    · simp [List.dropWhile_cons, h, ih]
    · simp [List.dropWhile_cons, h]

theorem dropRightWhile_idem (p : Char → Bool) (l : List Char) :
    dropRightWhile p (dropRightWhile p l) = dropRightWhile p l := by
  unfold dropRightWhile
  rw [List.reverse_reverse, dropWhile_idem]

theorem dropRightWhile_cons_of_empty (p : Char → Bool) (c : Char)
    (t : List Char) (h : dropRightWhile p t = []) :
    dropRightWhile p (c :: t) = if p c then [] else [c] := by
  unfold dropRightWhile at h ⊢
  rw [List.reverse_eq_nil_iff] at h
  rw [List.reverse_cons, List.dropWhile_append, h]
  cases hc : p c <;> simp [List.dropWhile_cons, hc]

theorem dropRightWhile_cons_of_ne (p : Char → Bool) (c : Char)
    (t : List Char) (h : dropRightWhile p t ≠ []) :
    dropRightWhile p (c :: t) = c :: dropRightWhile p t := by
  unfold dropRightWhile at h ⊢
  rw [ne_eq, List.reverse_eq_nil_iff] at h
  rw [List.reverse_cons, List.dropWhile_append,
    if_neg (by simpa [List.isEmpty_iff] using h), List.reverse_append]
  rfl

theorem dropWhile_dropRightWhile_comm (p : Char → Bool) (l : List Char) :
    (dropRightWhile p l).dropWhile p = dropRightWhile p (l.dropWhile p) := by
  induction l with
  | nil => rfl
  | cons c t ih =>
    by_cases hc : p c
    · rw [List.dropWhile_cons, if_pos hc]
      by_cases ht : dropRightWhile p t = []
      · rw [dropRightWhile_cons_of_empty p c t ht, if_pos hc, ← ih, ht]
      · rw [dropRightWhile_cons_of_ne p c t ht, List.dropWhile_cons, if_pos hc,
          ih]
    · rw [List.dropWhile_cons, if_neg hc]
      by_cases ht : dropRightWhile p t = []
      · rw [dropRightWhile_cons_of_empty p c t ht, if_neg hc,
          List.dropWhile_cons, if_neg hc]
      · rw [dropRightWhile_cons_of_ne p c t ht, List.dropWhile_cons, if_neg hc]

theorem stripList_idem (l : List Char) : stripList (stripList l) = stripList l := by
  unfold stripList
  rw [dropWhile_dropRightWhile_comm, dropWhile_idem, dropRightWhile_idem]

theorem isPyWS_replChar (c : Char) : isPyWS (replChar c) = isPyWS c := by
  unfold replChar
  by_cases h : badChar c
  · rw [if_pos h]
    have h1 : isPyWS c = false := by
      simp only [badChar, Bool.or_eq_true, beq_iff_eq] at h
      obtain ((((((((h | h) | h) | h) | h) | h) | h) | h) | h) := h <;>
        subst h <;> decide
    rw [h1]
    decide
  · rw [if_neg h]

theorem replChar_idem (c : Char) : replChar (replChar c) = replChar c := by
  unfold replChar
  by_cases h : badChar c <;> simp [h]

theorem replaceBadList_idem (l : List Char) :
    replaceBadList (replaceBadList l) = replaceBadList l := by
  simp [replaceBadList, List.map_map, Function.comp, replChar_idem]

theorem dropWhile_replaceBadList (l : List Char) :
    (replaceBadList l).dropWhile isPyWS = replaceBadList (l.dropWhile isPyWS) := by
  induction l with
  | nil => rfl
  | cons c t ih =>
    by_cases h : isPyWS c
    · simp only [replaceBadList, List.map_cons, List.dropWhile_cons,
        isPyWS_replChar, h, if_true]
      simpa [replaceBadList] using ih
    · simp [replaceBadList, List.dropWhile_cons, isPyWS_replChar, h]

theorem reverse_replaceBadList (l : List Char) :
    (replaceBadList l).reverse = replaceBadList l.reverse := by
  simp [replaceBadList, List.map_reverse]

theorem stripList_replaceBadList (l : List Char) :
    stripList (replaceBadList l) = replaceBadList (stripList l) := by
  unfold stripList dropRightWhile
  rw [dropWhile_replaceBadList, reverse_replaceBadList, dropWhile_replaceBadList,
    reverse_replaceBadList]

/-- The post-normalisation part of the sanitiser is idempotent. -/
theorem sanitizeCore_idem (v : String) :
    sanitizeCore (sanitizeCore v) = sanitizeCore v := by
  unfold sanitizeCore
  congr 1
  calc stripList (replaceBadList (stripList (replaceBadList v.data)))
      = stripList (stripList (replaceBadList (replaceBadList v.data))) := by
        rw [← stripList_replaceBadList]
    _ = stripList (stripList (replaceBadList v.data)) := by
        rw [replaceBadList_idem]
    _ = stripList (replaceBadList v.data) := stripList_idem _

/-- C5: `sanitize_file_name` is idempotent.  The external NFC
normalisation enters through two hypotheses that hold of the real
`unicodedata.normalize("NFC", ·)`: it is idempotent, and a normalised
string stays normalised after the reserved characters are replaced with
`_` and surrounding whitespace is trimmed (the replacement only turns
ASCII punctuation starters into `_`, which composes with nothing, and
trimming only removes edge characters, which creates no new composable
adjacency). -/
theorem sanitize_file_name_idempotent (nfc : String → String)
    (hIdem : ∀ s, nfc (nfc s) = nfc s)
    (hPres : ∀ s, nfc s = s → nfc (sanitizeCore s) = sanitizeCore s)
    (s : String) :
    sanitize_file_name nfc (sanitize_file_name nfc s) =
      sanitize_file_name nfc s := by
  unfold sanitize_file_name
  rw [hPres (nfc s) (hIdem s), sanitizeCore_idem]

/-- Witness for C5 with `nfc := id` (NFC is the identity on the ASCII
string used) at a string needing both replacement and trimming. -/
theorem sanitize_file_name_idempotent_witness :
    sanitize_file_name id (sanitize_file_name id " Test<Game?.pkg ") =
      sanitize_file_name id " Test<Game?.pkg " :=
  sanitize_file_name_idempotent id (fun _ => rfl) (fun _ _ => rfl)
    " Test<Game?.pkg "

/-! ## C8 — missing catalog columns -/

/-- C8: a column name absent from the header row yields `""` from
`row_val` (never an error), and a row whose named columns are all
missing still produces a record, with empty-string fields and file size
`0`. -/
theorem missing_columns_default (headers row : List String) (inf : TSVInfo)
    (hmiss : ∀ c ∈ tsvColumns, headers.findIdx? (· == c) = none) :
    (∀ c, headers.findIdx? (· == c) = none →
      row_val headers row c = .ok "") ∧
    makeTSVEntry headers row inf =
      .ok { title_id := "", region := "", name := "", content_id := "",
            app_version := "", update_version := "", file_size := 0,
            sha256 := "", info := inf } := by
  have hval : ∀ c, headers.findIdx? (· == c) = none →
      row_val headers row c = .ok "" := by
    intro c hc
    unfold row_val
    rw [hc]
  refine ⟨hval, ?_⟩
  have e1 := hval "Title ID" (hmiss _ (by simp [tsvColumns]))
  have e2 := hval "Region" (hmiss _ (by simp [tsvColumns]))
  have e3 := hval "Name" (hmiss _ (by simp [tsvColumns]))
  have e4 := hval "Content ID" (hmiss _ (by simp [tsvColumns]))
  have e5 := hval "App Version" (hmiss _ (by simp [tsvColumns]))
  have e6 := hval "Update Version" (hmiss _ (by simp [tsvColumns]))
  have e7 := hval "File Size" (hmiss _ (by simp [tsvColumns]))
  have e8 := hval "SHA256" (hmiss _ (by simp [tsvColumns]))
  simp only [makeTSVEntry, bind, Except.bind, e1, e2, e3, e4, e5, e6, e7, e8]
  rfl

/-- Witness for C8: headers that contain none of the named columns. -/
theorem missing_columns_default_witness :
    makeTSVEntry ["Foo"] ["x"] { console := "PS3", type := "game" } =
      .ok { title_id := "", region := "", name := "", content_id := "",
            app_version := "", update_version := "", file_size := 0,
            sha256 := "", info := { console := "PS3", type := "game" } } :=
  (missing_columns_default ["Foo"] ["x"] _ (by decide)).2

/-! ## C9 — dry-run behaviour -/

/-- C9 counterexample: in dry-run mode the planning loop still calls
`os.makedirs` on the destination directory — a filesystem mutation —
while the transfer loop only prints.  (The `mkdirs` field lists the
directories passed to `os.makedirs`.) -/
theorem dry_run_still_makes_directories :
    (runMain id cfgC2 true [eC2full] [fC2] (fun _ => false) (fun _ => 0)).map
        (fun r => (r.plan.mkdirs, r.transfers)) =
      .ok (["out/PS3/game"],
           [XEffect.printCopy "pkgs/UP1234-ABCD12345_00-TESTGAME.pkg"
              "out/PS3/game/Test Game [ABCD12345].pkg"]) := by
  decide

theorem execTransfers_dry_no_mutation (copyMode : Bool)
    (ex : String → Bool) (fsize : String → Int)
    (moves : List (String × String)) :
    ∀ e ∈ execTransfers true copyMode ex fsize moves,
      isMutationEffect e = false := by
  induction moves with
  | nil =>
    intro e he
    simp [execTransfers] at he
  | cons pr rest ih =>
    obtain ⟨src, dest⟩ := pr
    intro e he
    unfold execTransfers at he
    split at he
    · exact ih e he
    · cases copyMode <;> simp at he <;> rcases he with he | he
      · subst he; rfl
      · exact ih e he
      · subst he; rfl
      · exact ih e he

/-- C9 amended: dry-run mode suppresses exactly the copy/move
operations of the transfer loop (directory creation during planning
still happens); the entire planning state — move pairs, unhandled
files, duplicate-rename logs, directory creations — and the
unhandled-file report are identical to a real run's. -/
theorem runStage2_dry_props (cfg : Config) (ex : String → Bool)
    (fsize : String → Int) (st : PlanState) :
    (runStage2 cfg true ex fsize st).plan =
      (runStage2 cfg false ex fsize st).plan ∧
    (runStage2 cfg true ex fsize st).report =
      (runStage2 cfg false ex fsize st).report ∧
    ∀ e ∈ (runStage2 cfg true ex fsize st).transfers,
      isMutationEffect e = false := by
  unfold runStage2
  split
  · refine ⟨rfl, rfl, ?_⟩
    intro e he
    simp at he
  · exact ⟨rfl, rfl, execTransfers_dry_no_mutation _ _ _ _⟩

theorem dry_run_no_copy_move_same_plan (nfc : String → String) (cfg : Config)
    (entries : List TSVEntry) (files : List PkgFile)
    (ex : String → Bool) (fsize : String → Int) (r₁ r₂ : RunResult)
    (h₁ : runMain nfc cfg true entries files ex fsize = .ok r₁)
    (h₂ : runMain nfc cfg false entries files ex fsize = .ok r₂) :
    r₁.plan = r₂.plan ∧ r₁.report = r₂.report ∧
    ∀ e ∈ r₁.transfers, isMutationEffect e = false := by
  unfold runMain at h₁ h₂
  cases hpf : processFiles nfc cfg entries files initState with
  | error e =>
    rw [hpf] at h₁
    cases h₁
  | ok st =>
    rw [hpf] at h₁ h₂
    have h₁' : Except.ok (runStage2 cfg true ex fsize st) =
        (Except.ok r₁ : Except Fatal RunResult) := h₁
    have h₂' : Except.ok (runStage2 cfg false ex fsize st) =
        (Except.ok r₂ : Except Fatal RunResult) := h₂
    cases h₁'
    cases h₂'
    exact runStage2_dry_props cfg ex fsize st

/-- The run result of the dry run of the C2-amended scenario. -/
def rDry : RunResult :=
  (runMain id cfgC2 true [eC2full] [fC2] (fun _ => false)
    (fun _ => 0)).toOption.getD
    { plan := initState, transfers := [], report := [], nothingToDo := true }

/-- The run result of the corresponding real run. -/
def rReal : RunResult :=
  (runMain id cfgC2 false [eC2full] [fC2] (fun _ => false)
    (fun _ => 0)).toOption.getD
    { plan := initState, transfers := [], report := [], nothingToDo := true }

/-- Witness for C9's amended theorem at the concrete scenario. -/
theorem dry_run_no_copy_move_same_plan_witness :
    rDry.plan = rReal.plan ∧ rDry.report = rReal.report ∧
    ∀ e ∈ rDry.transfers, isMutationEffect e = false :=
  dry_run_no_copy_move_same_plan id cfgC2 [eC2full] [fC2] (fun _ => false)
    (fun _ => 0) rDry rReal (by decide) (by decide)

end NpsRenamer
